import Mathlib

/-!
Shallow embedding of the three scripts of this repository:
  * `src/h100-inference-server.py` — Flask endpoints `/health`, `/generate`,
    `/generate-image`, `/models`;
  * `src/rasa/actions/actions.py` — Rasa dialogue action handlers;
  * `src/server/src/deploy-vision-models.py` — `VisionModelDeployer`.

Python values that flow through JSON are modelled by the inductive `Json`;
Python exceptions by `PyExn` and `Except`; machine side effects (outbound
HTTP, file writes) by explicit data in the result.
-/

/-- A parsed JSON / Python value as the handlers see it: `null` is Python
`None`, `num` an integer, `obj` a dict (association list with distinct keys
after JSON parsing). -/
inductive Json where
  | null : Json
  | bool : Bool → Json
  | num : Int → Json
  | str : String → Json
  | arr : List Json → Json
  | obj : List (String × Json) → Json
deriving Repr

/-- Python exceptions relevant to the handlers: Flask's `BadRequest` raised by
`request.json` on an unparseable body, and `AttributeError` raised by calling
a `dict`/`str` method on a value of the wrong type. -/
inductive PyExn where
  | badRequest : PyExn
  | attributeError : PyExn
deriving Repr, DecidableEq

mutual

/-- Python repr() of a parsed-JSON value (used for elements of containers). -/
def pyRepr : Json → String
  | Json.null => "None"
  | Json.bool true => "True"
  | Json.bool false => "False"
  | Json.num n => toString n
  | Json.str s => "\x27" ++ s ++ "\x27"
  | Json.arr xs => "[" ++ String.intercalate ", " (pyReprList xs) ++ "]"
  | Json.obj kvs => "\x7b" ++ String.intercalate ", " (pyReprEntries kvs) ++ "\x7d"

/-- repr() of the elements of a list value. -/
def pyReprList : List Json → List String
  | [] => []
  | x :: xs => pyRepr x :: pyReprList xs

/-- repr() of the `key: value` entries of a dict value. -/
def pyReprEntries : List (String × Json) → List String
  | [] => []
  | (k, v) :: kvs => ("\x27" ++ k ++ "\x27: " ++ pyRepr v) :: pyReprEntries kvs

end

/-- Python str() of a parsed-JSON value, as an f-string renders it. -/
def pyStr : Json → String
  | Json.str s => s
  | v => pyRepr v

/-- Python truthiness of a parsed-JSON value (`if x:`; `bool(x)`). -/
def py_truthy : Json → Bool
  | Json.null => false
  | Json.bool b => b
  | Json.num n => n != 0
  | Json.str s => !s.isEmpty
  | Json.arr xs => !xs.isEmpty
  | Json.obj kvs => !kvs.isEmpty

/-- Python `data.get(k, default)`: succeeds on a dict (returning the stored
value or the default), raises `AttributeError` on any other value. -/
def py_dict_get (data : Json) (k : String) (default : Json) : Except PyExn Json :=
  match data with
  | Json.obj kvs => Except.ok ((kvs.lookup k).getD default)
  | _ => Except.error PyExn.attributeError

/-- Worker for Python `s.split()`: walks the characters keeping the current
word reversed in the accumulator, emitting a word at each whitespace run. -/
def py_split_chars : List Char → List Char → List String
  | [], w => if w.isEmpty then [] else [String.mk w.reverse]
  | c :: cs, w =>
    if c.isWhitespace then
      if w.isEmpty then py_split_chars cs []
      else String.mk w.reverse :: py_split_chars cs []
    else py_split_chars cs (c :: w)

/-- Python `s.split()` with no argument: splits on whitespace runs, dropping
empty pieces. -/
def py_whitespace_split (s : String) : List String :=
  py_split_chars s.data []

/-- The `len(v.split()) ` for a value that must be a string (`AttributeError`
otherwise, as in Python). -/
def py_split_len (v : Json) : Except PyExn Nat :=
  match v with
  | Json.str s => Except.ok (py_whitespace_split s).length
  | _ => Except.error PyExn.attributeError

/-- Field lookup in a JSON object response. -/
def jget (j : Json) (k : String) : Option Json :=
  match j with
  | Json.obj kvs => kvs.lookup k
  | _ => none

/-- The key list of a JSON object response. -/
def jkeys (j : Json) : Option (List String) :=
  match j with
  | Json.obj kvs => some (kvs.map Prod.fst)
  | _ => none

/-! ## h100-inference-server.py -/

/-- The module-level flags of `h100-inference-server.py`: `GPU_AVAILABLE` and
the two model dicts `TEXT_MODELS`, `IMAGE_MODELS`. -/
structure ServerState where
  GPU_AVAILABLE : Bool
  TEXT_MODELS : List (String × Json)
  IMAGE_MODELS : List (String × Json)

/-- The `load_text_models`: starts from an empty dict, the GPU branch only logs
(the actual loads are a TODO), and the dict is returned unchanged.  Result is
(models, log lines). -/
def load_text_models (GPU_AVAILABLE : Bool) : List (String × Json) × List String :=
  let models : List (String × Json) := []
  if GPU_AVAILABLE then
    (models, ["Loading text models on GPU..."])
  else
    (models, ["No GPU - text models not loaded"])

/-- The `load_image_models`: same shape as `load_text_models`. -/
def load_image_models (GPU_AVAILABLE : Bool) : List (String × Json) × List String :=
  let models : List (String × Json) := []
  if GPU_AVAILABLE then
    (models, ["Loading image models on GPU..."])
  else
    (models, ["No GPU - image models not loaded"])

/-- Module initialisation: `TEXT_MODELS = load_text_models()` and
`IMAGE_MODELS = load_image_models()` with the detected `GPU_AVAILABLE`. -/
def init_state (GPU_AVAILABLE : Bool) : ServerState :=
  { GPU_AVAILABLE := GPU_AVAILABLE
    TEXT_MODELS := (load_text_models GPU_AVAILABLE).1
    IMAGE_MODELS := (load_image_models GPU_AVAILABLE).1 }

/-- The body of a POST request as `request.json` sees it: either unparseable
(no JSON / broken JSON, on which `request.json` raises) or a parsed value. -/
inductive ReqBody where
  | malformed : ReqBody
  | parsed : Json → ReqBody

/-- Flask's `request.json`: raises `BadRequest` on an unparseable body. -/
def request_json : ReqBody → Except PyExn Json
  | ReqBody.malformed => Except.error PyExn.badRequest
  | ReqBody.parsed j => Except.ok j

/-- The jsonify argument of the `not GPU_AVAILABLE` branch of
`generate_text`: `nwords` is `len(prompt.split())`. -/
def mock_text_response (prompt model : Json) (nwords : Nat) : Json :=
  Json.obj
    [ ("text", Json.str ("[Mock H100 Response] I would generate text for: \x27"
        ++ pyStr prompt ++ "\x27 using model " ++ pyStr model))
    , ("tokens_used", Json.num (Int.ofNat nwords * 2))
    , ("model", model)
    , ("gpu_used", Json.bool false) ]

/-- The jsonify argument of the GPU branch of `generate_text` (the TODO
placeholder return). -/
def real_text_response (prompt model max_tokens : Json) : Json :=
  Json.obj
    [ ("text", Json.str ("Generated response for: " ++ pyStr prompt))
    , ("tokens_used", max_tokens)
    , ("model", model)
    , ("gpu_used", Json.bool true) ]

/-- The `/generate` handler `generate_text`. -/
def generate_text (st : ServerState) (req : ReqBody) : Except PyExn Json := do
  let data ← request_json req
  let prompt ← py_dict_get data "prompt" (Json.str "")
  let model ← py_dict_get data "model" (Json.str "default")
  let max_tokens ← py_dict_get data "max_tokens" (Json.num 1000)
  if st.GPU_AVAILABLE then
    pure (real_text_response prompt model max_tokens)
  else do
    let nwords ← py_split_len prompt
    pure (mock_text_response prompt model nwords)

/-- The jsonify argument of the `not GPU_AVAILABLE` branch of
`generate_image` (the placeholder image). -/
def mock_image_response (prompt model : Json) : Json :=
  Json.obj
    [ ("image_url", Json.str "https://via.placeholder.com/1024x1024/FF6B6B/FFFFFF?text=H100+GPU+Not+Available")
    , ("prompt", prompt)
    , ("model", model)
    , ("gpu_used", Json.bool false) ]

/-- The jsonify argument of the GPU branch of `generate_image`. -/
def real_image_response (prompt model : Json) : Json :=
  Json.obj
    [ ("image_url", Json.str "generated_image_url_here")
    , ("prompt", prompt)
    , ("model", model)
    , ("gpu_used", Json.bool true) ]

/-- The `/generate-image` handler `generate_image`. -/
def generate_image (st : ServerState) (req : ReqBody) : Except PyExn Json := do
  let data ← request_json req
  let prompt ← py_dict_get data "prompt" (Json.str "")
  let model ← py_dict_get data "model" (Json.str "stable-diffusion-2.1")
  if st.GPU_AVAILABLE then
    pure (real_image_response prompt model)
  else
    pure (mock_image_response prompt model)

/-- The `/health` handler: `models_loaded` is `bool(TEXT_MODELS or IMAGE_MODELS)`. -/
def health (st : ServerState) : Json :=
  Json.obj
    [ ("status", Json.str "ok")
    , ("gpu_available", Json.bool st.GPU_AVAILABLE)
    , ("models_loaded", Json.bool (!st.TEXT_MODELS.isEmpty || !st.IMAGE_MODELS.isEmpty)) ]

/-- The `/models` handler: `list(TEXT_MODELS.keys()) if TEXT_MODELS else
['none_loaded']` and likewise for images. -/
def list_models (st : ServerState) : Json :=
  Json.obj
    [ ("text_models", Json.arr (if !st.TEXT_MODELS.isEmpty
        then st.TEXT_MODELS.map (fun kv => Json.str kv.1) else [Json.str "none_loaded"]))
    , ("image_models", Json.arr (if !st.IMAGE_MODELS.isEmpty
        then st.IMAGE_MODELS.map (fun kv => Json.str kv.1) else [Json.str "none_loaded"]))
    , ("gpu_available", Json.bool st.GPU_AVAILABLE) ]

/-- The four routes of the inference server. -/
inductive Endpoint where
  | health : Endpoint
  | generate : Endpoint
  | generateImage : Endpoint
  | models : Endpoint

/-- One request/response step of the server.  No handler assigns to any
module-level name, so the state component is returned unchanged by the
translation of each handler body. -/
def handle (ep : Endpoint) (req : ReqBody) (st : ServerState) :
    Except PyExn Json × ServerState :=
  match ep with
  | Endpoint.health => (Except.ok (health st), st)
  | Endpoint.generate => (generate_text st req, st)
  | Endpoint.generateImage => (generate_image st req, st)
  | Endpoint.models => (Except.ok (list_models st), st)

/-! ## rasa/actions/actions.py -/

/-- A Rasa conversation event produced by an action (`SlotSet(slot, value)`). -/
inductive Event where
  | slotSet : String → Json → Event

/-- The outcome of the downstream HTTP call for a POST action: the call
returned with `response.ok` (carrying the parsed `response.json()` body),
returned with a non-ok status, or raised. -/
inductive HttpResult where
  | ok : Json → HttpResult
  | notOk : HttpResult
  | exn : HttpResult

/-- The outcome of `requests.get` in `ActionListTasks`: on `response.ok` the
parsed body is the task list the orchestrator returns. -/
inductive ListHttpResult where
  | ok : List Json → ListHttpResult
  | notOk : ListHttpResult
  | exn : ListHttpResult

/-- What one action run did: the outbound HTTP request it attempted
(url, JSON body; no body for a GET), the texts it uttered through the
dispatcher, and the event list it returned. -/
structure ActionOutcome where
  request : Option (String × Option Json)
  messages : List String
  events : List Event

/-- The `ActionCreateTask.run`: guarded by the truthiness of the `task_name`
slot; on an ok response, a non-ok response and an exception it utters one
message each. -/
def actionCreateTask_run (task_name : Option String) (http : HttpResult) : ActionOutcome :=
  match task_name with
  | some name =>
    if name.isEmpty then
      { request := none, messages := ["What task would you like me to create?"], events := [] }
    else
      let req := some ("http://localhost:3000/api/orchestrator/tasks",
        some (Json.obj [("name", Json.str name), ("status", Json.str "pending")]))
      match http with
      | HttpResult.ok _ =>
        { request := req
          messages := ["✅ Task \x27" ++ name ++ "\x27 has been created!"], events := [] }
      | HttpResult.notOk =>
        { request := req
          messages := ["Sorry, I couldn\x27t create the task. Please try again."], events := [] }
      | HttpResult.exn =>
        { request := req
          messages := ["I\x27m having trouble connecting to the task service."], events := [] }
  | none =>
    { request := none, messages := ["What task would you like me to create?"], events := [] }

/-- The task list string built by `ActionListTasks.run` on an ok response:
`task.get("completed")`/`task.get('name')` raise `AttributeError` when an
element is not a dict (caught by the surrounding bare `except`). -/
def build_task_list (tasks : List Json) : Except PyExn String :=
  tasks.foldlM
    (fun acc task => do
      let completed ← py_dict_get task "completed" Json.null
      let name ← py_dict_get task "name" Json.null
      let status := if py_truthy completed then "✅" else "⏳"
      pure (acc ++ status ++ " " ++ pyStr name ++ "\n"))
    "📋 Your current tasks:\n"

/-- The `ActionListTasks.run`: on a non-ok response the `if response.ok:` block is
skipped and there is no else branch, so nothing is uttered. -/
def actionListTasks_run (http : ListHttpResult) : ActionOutcome :=
  let req := some ("http://localhost:3000/api/orchestrator/tasks", (none : Option Json))
  match http with
  | ListHttpResult.ok tasks =>
    if tasks.isEmpty then
      { request := req
        messages := ["You don\x27t have any tasks yet. Would you like to create one?"]
        events := [] }
    else
      match build_task_list tasks with
      | Except.ok s => { request := req, messages := [s], events := [] }
      | Except.error _ =>
        { request := req, messages := ["I couldn\x27t retrieve your tasks right now."], events := [] }
  | ListHttpResult.notOk => { request := req, messages := [], events := [] }
  | ListHttpResult.exn =>
    { request := req, messages := ["I couldn\x27t retrieve your tasks right now."], events := [] }

/-- Python `website_url.startswith(t)`: character-sequence prefix test. -/
def py_startswith (s t : String) : Bool :=
  t.data.isPrefixOf s.data

/-- The `# Ensure URL has protocol` normalisation in `ActionBrowseWebsite.run`:
prepend `https://` unless the slot already starts with `http://` or
`https://`. -/
def ensure_url_protocol (u : String) : String :=
  if py_startswith u "http://" || py_startswith u "https://" then u
  else "https://" ++ u

/-- The `ActionBrowseWebsite.run`: guarded by the truthiness of the `website_url`
slot, normalises the URL, posts it to the browser agent. -/
def actionBrowseWebsite_run (website_url : Option String) (http : HttpResult) : ActionOutcome :=
  match website_url with
  | some u =>
    if u.isEmpty then
      { request := none, messages := ["Which website would you like me to browse?"], events := [] }
    else
      let url := ensure_url_protocol u
      let req := some ("http://localhost:3000/api/browser-agent/navigate",
        some (Json.obj [("url", Json.str url)]))
      match http with
      | HttpResult.ok _ =>
        { request := req
          messages := ["🌐 I\x27ve opened " ++ url ++ " for you. You can see it in the browser panel."]
          events := [] }
      | HttpResult.notOk =>
        { request := req, messages := ["I had trouble opening that website."], events := [] }
      | HttpResult.exn =>
        { request := req, messages := ["The browser service isn\x27t available right now."], events := [] }
  | none =>
    { request := none, messages := ["Which website would you like me to browse?"], events := [] }

/-- The `ActionAIResponse.run`: posts the latest user message (possibly `None`)
to the AI chat API; `data.get('result', ...)` on a non-dict body raises,
caught by the `except Exception` branch. -/
def actionAIResponse_run (user_message : Option String) (http : HttpResult) : ActionOutcome :=
  let req := some ("http://localhost:3000/api/ai/chat",
    some (Json.obj
      [ ("prompt", match user_message with | some s => Json.str s | none => Json.null)
      , ("model", Json.str "auto")
      , ("task_type", Json.str "general")
      , ("complexity", Json.str "medium")
      , ("quality", Json.str "standard") ]))
  match http with
  | HttpResult.ok body =>
    match py_dict_get body "result" (Json.str "I apologize, but I couldn\x27t generate a response.") with
    | Except.ok v => { request := req, messages := [pyStr v], events := [] }
    | Except.error _ =>
      { request := req
        messages := ["I\x27m experiencing some technical difficulties. Please try again later."]
        events := [] }
  | HttpResult.notOk =>
    { request := req
      messages := ["I\x27m having trouble thinking right now. Please try again."], events := [] }
  | HttpResult.exn =>
    { request := req
      messages := ["I\x27m experiencing some technical difficulties. Please try again later."]
      events := [] }

/-- The prompt extraction of `ActionGenerateImage.run`:
`user_message.lower().replace(...).replace(...).replace(...).strip()`. -/
def extract_image_prompt (user_message : String) : String :=
  ((((user_message.toLower).replace "generate an image of" "").replace
      "create a picture of" "").replace "make an image showing" "").trim

/-- The `ActionGenerateImage.run`: `user_message.lower()` is evaluated outside the
`try`, so a `None` latest message raises out of the action; otherwise the
extracted prompt is posted to the AI chat API. -/
def actionGenerateImage_run (user_message : Option String) (http : HttpResult) :
    Except PyExn ActionOutcome :=
  match user_message with
  | none => Except.error PyExn.attributeError
  | some s =>
    let prompt := extract_image_prompt s
    let req := some ("http://localhost:3000/api/ai/chat",
      some (Json.obj
        [ ("prompt", Json.str prompt)
        , ("task_type", Json.str "image")
        , ("complexity", Json.str "medium")
        , ("quality", Json.str "standard") ]))
    Except.ok (match http with
      | HttpResult.ok body =>
        match py_dict_get body "result" (Json.str "") with
        | Except.ok v =>
          { request := req, messages := ["🎨 Here\x27s your image:\n\n" ++ pyStr v], events := [] }
        | Except.error _ =>
          { request := req, messages := ["The image generation service is unavailable."], events := [] }
      | HttpResult.notOk =>
        { request := req, messages := ["I couldn\x27t generate the image right now."], events := [] }
      | HttpResult.exn =>
        { request := req, messages := ["The image generation service is unavailable."], events := [] })

/-- Python `not v` on the current slot value (`None` when the slot is unset):
a bool that negates the value's truthiness. -/
def py_not (v : Json) : Json :=
  Json.bool (!py_truthy v)

/-- The `ActionToggleConversationMode.run`: one SlotSet with the negated
truthiness of the `conversation_mode` slot. -/
def actionToggleConversationMode_run (conversation_mode : Json) : List Event :=
  [Event.slotSet "conversation_mode" (py_not conversation_mode)]

/-- The `ActionToggleAutoSpeak.run`: one SlotSet with the negated truthiness of
the `auto_speak` slot. -/
def actionToggleAutoSpeak_run (auto_speak : Json) : List Event :=
  [Event.slotSet "auto_speak" (py_not auto_speak)]

/-! ## server/src/deploy-vision-models.py -/

/-- Which steps of `VisionModelDeployer` fail in a given run of the
environment (package index, model hub, disk): `edge_fails` is the MiniCPM-V
failure caught by the `try/except Exception` inside `deploy_edge_models`
itself. -/
structure DeployEnv where
  install_fails : Bool
  qwen_fails : Bool
  ocr_fails : Bool
  edge_fails : Bool

/-- Observable effects of a deployment run, in the order they happen. -/
inductive DeployEv where
  | deps_installed : DeployEv
  | qwen_deployed : DeployEv
  | qwen_failed : DeployEv
  | ocr_deployed : DeployEv
  | ocr_failed : DeployEv
  | edge_deployed : DeployEv
  | edge_failed : DeployEv
  | api_written : String → DeployEv
deriving DecidableEq

/-- The `install_dependencies`: a failing `pip install` (run with `check=True`)
raises and is not caught anywhere in the method. -/
def install_dependencies (env : DeployEnv) : Except Unit (List DeployEv) :=
  if env.install_fails then Except.error () else Except.ok [DeployEv.deps_installed]

/-- The `deploy_qwen_vl`: downloads and saves Qwen2-VL; any failure raises out of
the method. -/
def deploy_qwen_vl (env : DeployEnv) : Except Unit (List DeployEv) :=
  if env.qwen_fails then Except.error () else Except.ok [DeployEv.qwen_deployed]

/-- The `deploy_ocr_stack`: sets up EasyOCR, docTR, Kraken, PaddleOCR; any
failure raises out of the method. -/
def deploy_ocr_stack (env : DeployEnv) : Except Unit (List DeployEv) :=
  if env.ocr_fails then Except.error () else Except.ok [DeployEv.ocr_deployed]

/-- The `deploy_edge_models`: the whole MiniCPM-V deployment is inside a
`try/except Exception` that only logs, so the method itself never raises. -/
def deploy_edge_models (env : DeployEnv) : List DeployEv :=
  if env.edge_fails then [DeployEv.edge_failed] else [DeployEv.edge_deployed]

/-- The `create_unified_api`: unconditionally writes the template API file to
`models_dir.parent / "vision_api.py"`. -/
def create_unified_api : List DeployEv :=
  [DeployEv.api_written "/opt/models/vision_api.py"]

/-- The `deploy_all`: `install_dependencies` runs unguarded; each of the three
model-deployment steps is wrapped in its own `try/except Exception` that logs
and continues; `create_unified_api` runs last. -/
def deploy_all (env : DeployEnv) : Except Unit (List DeployEv) := do
  let e0 ← install_dependencies env
  let e1 := match deploy_qwen_vl env with
    | Except.ok t => t
    | Except.error _ => [DeployEv.qwen_failed]
  let e2 := match deploy_ocr_stack env with
    | Except.ok t => t
    | Except.error _ => [DeployEv.ocr_failed]
  let e3 := deploy_edge_models env
  let e4 := create_unified_api
  pure (e0 ++ e1 ++ e2 ++ e3 ++ e4)

/-! ## Characterisation lemmas -/

theorem generate_text_parsed_obj (st : ServerState) (kvs : List (String × Json)) :
    generate_text st (ReqBody.parsed (Json.obj kvs)) =
      if st.GPU_AVAILABLE then
        Except.ok (real_text_response ((List.lookup "prompt" kvs).getD (Json.str ""))
          ((List.lookup "model" kvs).getD (Json.str "default"))
          ((List.lookup "max_tokens" kvs).getD (Json.num 1000)))
      else
        match (List.lookup "prompt" kvs).getD (Json.str "") with
        | Json.str s =>
            Except.ok (mock_text_response (Json.str s)
              ((List.lookup "model" kvs).getD (Json.str "default"))
              (py_whitespace_split s).length)
        | _ => Except.error PyExn.attributeError := by
  cases hg : st.GPU_AVAILABLE <;>
    cases hp : (List.lookup "prompt" kvs).getD (Json.str "") <;>
      simp [generate_text, request_json, py_dict_get, py_split_len, hg, hp,
        Bind.bind, Except.bind, pure, Except.pure]

theorem generate_image_parsed_obj (st : ServerState) (kvs : List (String × Json)) :
    generate_image st (ReqBody.parsed (Json.obj kvs)) =
      if st.GPU_AVAILABLE then
        Except.ok (real_image_response ((List.lookup "prompt" kvs).getD (Json.str ""))
          ((List.lookup "model" kvs).getD (Json.str "stable-diffusion-2.1")))
      else
        Except.ok (mock_image_response ((List.lookup "prompt" kvs).getD (Json.str ""))
          ((List.lookup "model" kvs).getD (Json.str "stable-diffusion-2.1"))) := by
  cases hg : st.GPU_AVAILABLE <;>
    simp [generate_image, request_json, py_dict_get, hg,
      Bind.bind, Except.bind, pure, Except.pure]

theorem generate_text_ok_shape (st : ServerState) (req : ReqBody) (j : Json)
    (h : generate_text st req = Except.ok j) :
    (st.GPU_AVAILABLE = true ∧ ∃ p m mt, j = real_text_response p m mt) ∨
    (st.GPU_AVAILABLE = false ∧ ∃ p m n, j = mock_text_response p m n) := by
  cases req with
  | malformed => simp [generate_text, request_json, Bind.bind, Except.bind] at h
  | parsed d =>
    cases d with
    | obj kvs =>
      rw [generate_text_parsed_obj] at h
      cases hg : st.GPU_AVAILABLE <;> rw [hg] at h
      · cases hp : (List.lookup "prompt" kvs).getD (Json.str "") <;> rw [hp] at h <;>
          simp at h
        subst h
        exact Or.inr ⟨rfl, _, _, _, rfl⟩
      · simp at h
        subst h
        exact Or.inl ⟨rfl, _, _, _, rfl⟩
    | null => simp [generate_text, request_json, py_dict_get, Bind.bind, Except.bind] at h
    | bool b => simp [generate_text, request_json, py_dict_get, Bind.bind, Except.bind] at h
    | num n => simp [generate_text, request_json, py_dict_get, Bind.bind, Except.bind] at h
    | str s => simp [generate_text, request_json, py_dict_get, Bind.bind, Except.bind] at h
    | arr xs => simp [generate_text, request_json, py_dict_get, Bind.bind, Except.bind] at h

theorem generate_image_ok_shape (st : ServerState) (req : ReqBody) (j : Json)
    (h : generate_image st req = Except.ok j) :
    (st.GPU_AVAILABLE = true ∧ ∃ p m, j = real_image_response p m) ∨
    (st.GPU_AVAILABLE = false ∧ ∃ p m, j = mock_image_response p m) := by
  cases req with
  | malformed => simp [generate_image, request_json, Bind.bind, Except.bind] at h
  | parsed d =>
    cases d with
    | obj kvs =>
      rw [generate_image_parsed_obj] at h
      cases hg : st.GPU_AVAILABLE <;> rw [hg] at h <;> simp at h <;> subst h
      · exact Or.inr ⟨rfl, _, _, rfl⟩
      · exact Or.inl ⟨rfl, _, _, rfl⟩
    | null => simp [generate_image, request_json, py_dict_get, Bind.bind, Except.bind] at h
    | bool b => simp [generate_image, request_json, py_dict_get, Bind.bind, Except.bind] at h
    | num n => simp [generate_image, request_json, py_dict_get, Bind.bind, Except.bind] at h
    | str s => simp [generate_image, request_json, py_dict_get, Bind.bind, Except.bind] at h
    | arr xs => simp [generate_image, request_json, py_dict_get, Bind.bind, Except.bind] at h

/-! ## Claims -/

/-- C1: For every POST request handled by `/generate` or `/generate-image`
that produces a response, the mock branch is taken exactly when
`GPU_AVAILABLE` is false and the real (unimplemented-inference) branch
exactly when it is true, and the `gpu_used` field of the returned JSON
equals `GPU_AVAILABLE`. -/
theorem generate_branch_tracks_gpu (st : ServerState) (req reqi : ReqBody) (jt ji : Json) :
    (generate_text st req = Except.ok jt →
      jget jt "gpu_used" = some (Json.bool st.GPU_AVAILABLE) ∧
      ((∃ p m n, jt = mock_text_response p m n) ↔ st.GPU_AVAILABLE = false) ∧
      ((∃ p m mt, jt = real_text_response p m mt) ↔ st.GPU_AVAILABLE = true)) ∧
    (generate_image st reqi = Except.ok ji →
      jget ji "gpu_used" = some (Json.bool st.GPU_AVAILABLE) ∧
      ((∃ p m, ji = mock_image_response p m) ↔ st.GPU_AVAILABLE = false) ∧
      ((∃ p m, ji = real_image_response p m) ↔ st.GPU_AVAILABLE = true)) := by
  constructor
  · intro h
    rcases generate_text_ok_shape st req jt h with ⟨hg, p, m, mt, rfl⟩ | ⟨hg, p, m, n, rfl⟩
    · rw [hg]
      refine ⟨rfl, ?_, ?_⟩
      · constructor
        · rintro ⟨p', m', n', he⟩
          simp [real_text_response, mock_text_response] at he
        · intro hc
          exact absurd hc (by simp)
      · exact ⟨fun _ => rfl, fun _ => ⟨p, m, mt, rfl⟩⟩
    · rw [hg]
      refine ⟨rfl, ?_, ?_⟩
      · exact ⟨fun _ => rfl, fun _ => ⟨p, m, n, rfl⟩⟩
      · constructor
        · rintro ⟨p', m', mt', he⟩
          simp [real_text_response, mock_text_response] at he
        · intro hc
          exact absurd hc (by simp)
  · intro h
    rcases generate_image_ok_shape st reqi ji h with ⟨hg, p, m, rfl⟩ | ⟨hg, p, m, rfl⟩
    · rw [hg]
      refine ⟨rfl, ?_, ?_⟩
      · constructor
        · rintro ⟨p', m', he⟩
          simp [real_image_response, mock_image_response] at he
        · intro hc
          exact absurd hc (by simp)
      · exact ⟨fun _ => rfl, fun _ => ⟨p, m, rfl⟩⟩
    · rw [hg]
      refine ⟨rfl, ?_, ?_⟩
      · exact ⟨fun _ => rfl, fun _ => ⟨p, m, rfl⟩⟩
      · constructor
        · rintro ⟨p', m', he⟩
          simp [real_image_response, mock_image_response] at he
        · intro hc
          exact absurd hc (by simp)

/-- Witness for C1: the no-GPU server on an empty-object body takes the mock
branch of each endpoint and reports `gpu_used = false`. -/
theorem generate_branch_tracks_gpu_witness :
    jget (mock_text_response (Json.str "") (Json.str "default") 0) "gpu_used"
        = some (Json.bool false) ∧
    jget (mock_image_response (Json.str "") (Json.str "stable-diffusion-2.1")) "gpu_used"
        = some (Json.bool false) := by
  have h := generate_branch_tracks_gpu (init_state false)
    (ReqBody.parsed (Json.obj [])) (ReqBody.parsed (Json.obj []))
    (mock_text_response (Json.str "") (Json.str "default") 0)
    (mock_image_response (Json.str "") (Json.str "stable-diffusion-2.1"))
  exact ⟨(h.1 rfl).1, (h.2 rfl).1⟩

/-- C2: every endpoint that completes returns a JSON object with exactly its
documented keys: `/health` gives status, gpu_available, models_loaded;
`/generate` gives text, tokens_used, model, gpu_used; `/generate-image`
gives image_url, prompt, model, gpu_used; `/models` gives text_models,
image_models, gpu_available. -/
theorem endpoints_return_documented_keys (st : ServerState) (req reqi : ReqBody) (jt ji : Json) :
    jkeys (health st) = some ["status", "gpu_available", "models_loaded"] ∧
    jkeys (list_models st) = some ["text_models", "image_models", "gpu_available"] ∧
    (generate_text st req = Except.ok jt →
      jkeys jt = some ["text", "tokens_used", "model", "gpu_used"]) ∧
    (generate_image st reqi = Except.ok ji →
      jkeys ji = some ["image_url", "prompt", "model", "gpu_used"]) := by
  refine ⟨rfl, rfl, ?_, ?_⟩
  · intro h
    rcases generate_text_ok_shape st req jt h with ⟨_, p, m, mt, rfl⟩ | ⟨_, p, m, n, rfl⟩ <;> rfl
  · intro h
    rcases generate_image_ok_shape st reqi ji h with ⟨_, p, m, rfl⟩ | ⟨_, p, m, rfl⟩ <;> rfl

/-- Witness for C2: concrete key lists on the no-GPU server with an
empty-object body. -/
theorem endpoints_return_documented_keys_witness :
    jkeys (mock_text_response (Json.str "") (Json.str "default") 0)
        = some ["text", "tokens_used", "model", "gpu_used"] ∧
    jkeys (mock_image_response (Json.str "") (Json.str "stable-diffusion-2.1"))
        = some ["image_url", "prompt", "model", "gpu_used"] := by
  have h := endpoints_return_documented_keys (init_state false)
    (ReqBody.parsed (Json.obj [])) (ReqBody.parsed (Json.obj []))
    (mock_text_response (Json.str "") (Json.str "default") 0)
    (mock_image_response (Json.str "") (Json.str "stable-diffusion-2.1"))
  exact ⟨h.2.2.1 rfl, h.2.2.2 rfl⟩

/-- C4 counterexample: on a malformed (unparseable) body, `request.json`
raises and neither handler returns a fallback response, contradicting the
claim that malformed input falls back to defaults rather than raising. -/
theorem malformed_body_raises_counterexample :
    generate_text (init_state false) ReqBody.malformed = Except.error PyExn.badRequest ∧
    generate_image (init_state false) ReqBody.malformed = Except.error PyExn.badRequest ∧
    generate_text (init_state false) (ReqBody.parsed Json.null)
        = Except.error PyExn.attributeError := by
  exact ⟨rfl, rfl, rfl⟩

/-- C4 (amended): for every request whose body is a JSON object omitting the
`prompt`/`model`/`max_tokens` fields, `/generate` and `/generate-image` fall
back to the defaults (prompt `''`, model `'default'` resp.
`'stable-diffusion-2.1'`, max_tokens `1000`) and return a response; a
malformed or non-object body raises instead. -/
theorem object_body_missing_fields_defaults (st : ServerState) (kvs : List (String × Json))
    (hp : List.lookup "prompt" kvs = none) (hm : List.lookup "model" kvs = none)
    (hmt : List.lookup "max_tokens" kvs = none) :
    generate_text st (ReqBody.parsed (Json.obj kvs)) =
      Except.ok (if st.GPU_AVAILABLE then
          real_text_response (Json.str "") (Json.str "default") (Json.num 1000)
        else mock_text_response (Json.str "") (Json.str "default") 0) ∧
    generate_image st (ReqBody.parsed (Json.obj kvs)) =
      Except.ok (if st.GPU_AVAILABLE then
          real_image_response (Json.str "") (Json.str "stable-diffusion-2.1")
        else mock_image_response (Json.str "") (Json.str "stable-diffusion-2.1")) := by
  refine ⟨?_, ?_⟩
  · rw [generate_text_parsed_obj, hp, hm, hmt]
    cases st.GPU_AVAILABLE <;> rfl
  · rw [generate_image_parsed_obj, hp, hm]
    cases st.GPU_AVAILABLE <;> rfl

/-- Witness for the amended C4: the empty-object body on the no-GPU server. -/
theorem object_body_missing_fields_defaults_witness :
    generate_text (init_state false) (ReqBody.parsed (Json.obj [])) =
      Except.ok (if (init_state false).GPU_AVAILABLE then
          real_text_response (Json.str "") (Json.str "default") (Json.num 1000)
        else mock_text_response (Json.str "") (Json.str "default") 0) ∧
    generate_image (init_state false) (ReqBody.parsed (Json.obj [])) =
      Except.ok (if (init_state false).GPU_AVAILABLE then
          real_image_response (Json.str "") (Json.str "stable-diffusion-2.1")
        else mock_image_response (Json.str "") (Json.str "stable-diffusion-2.1")) :=
  object_body_missing_fields_defaults (init_state false) [] rfl rfl rfl

/-- C6: every endpoint handler is stateless and deterministic given the
module-level flags: a handler run leaves the server state unchanged, and a
second run of the same handler on the same request body (in the state left by
the first run) returns the identical response. -/
theorem handlers_stateless_deterministic (ep : Endpoint) (req : ReqBody) (st : ServerState) :
    (handle ep req st).2 = st ∧
    (handle ep req (handle ep req st).2).1 = (handle ep req st).1 := by
  cases ep <;> exact ⟨rfl, rfl⟩

/-- C8: `load_text_models` and `load_image_models` always return empty dicts
(the GPU branch only logs), so whatever `GPU_AVAILABLE` is, `/health` reports
`models_loaded = false` and `/models` lists `['none_loaded']` for both model
kinds. -/
theorem models_never_loaded (gpu : Bool) :
    (load_text_models gpu).1 = [] ∧ (load_image_models gpu).1 = [] ∧
    jget (health (init_state gpu)) "models_loaded" = some (Json.bool false) ∧
    jget (list_models (init_state gpu)) "text_models"
        = some (Json.arr [Json.str "none_loaded"]) ∧
    jget (list_models (init_state gpu)) "image_models"
        = some (Json.arr [Json.str "none_loaded"]) := by
  cases gpu <;> exact ⟨rfl, rfl, rfl, rfl, rfl⟩

/-- C3 counterexample: on a non-ok HTTP status `ActionListTasks.run` skips
the `if response.ok:` block and has no else branch, so it emits no message at
all — not exactly one. -/
theorem list_tasks_silent_on_not_ok :
    (actionListTasks_run ListHttpResult.notOk).messages = [] ∧
    ¬ (actionListTasks_run ListHttpResult.notOk).messages.length = 1 := by
  exact ⟨rfl, by decide⟩

/-- C3 (amended): whenever the downstream call raises, each of the five
HTTP-calling actions emits exactly one static generic-text message and
returns an empty event list; on a non-ok HTTP status the same holds for
ActionCreateTask, ActionBrowseWebsite, ActionAIResponse and
ActionGenerateImage, while ActionListTasks emits no message (still returning
an empty event list). -/
theorem actions_fail_with_single_generic_message (name u s : String) (um : Option String)
    (hn : name.isEmpty = false) (hu : u.isEmpty = false) :
    ((actionCreateTask_run (some name) HttpResult.notOk).messages
        = ["Sorry, I couldn\x27t create the task. Please try again."] ∧
      (actionCreateTask_run (some name) HttpResult.notOk).events = [] ∧
      (actionCreateTask_run (some name) HttpResult.exn).messages
        = ["I\x27m having trouble connecting to the task service."] ∧
      (actionCreateTask_run (some name) HttpResult.exn).events = []) ∧
    ((actionListTasks_run ListHttpResult.exn).messages
        = ["I couldn\x27t retrieve your tasks right now."] ∧
      (actionListTasks_run ListHttpResult.exn).events = [] ∧
      (actionListTasks_run ListHttpResult.notOk).messages = [] ∧
      (actionListTasks_run ListHttpResult.notOk).events = []) ∧
    ((actionBrowseWebsite_run (some u) HttpResult.notOk).messages
        = ["I had trouble opening that website."] ∧
      (actionBrowseWebsite_run (some u) HttpResult.notOk).events = [] ∧
      (actionBrowseWebsite_run (some u) HttpResult.exn).messages
        = ["The browser service isn\x27t available right now."] ∧
      (actionBrowseWebsite_run (some u) HttpResult.exn).events = []) ∧
    ((actionAIResponse_run um HttpResult.notOk).messages
        = ["I\x27m having trouble thinking right now. Please try again."] ∧
      (actionAIResponse_run um HttpResult.notOk).events = [] ∧
      (actionAIResponse_run um HttpResult.exn).messages
        = ["I\x27m experiencing some technical difficulties. Please try again later."] ∧
      (actionAIResponse_run um HttpResult.exn).events = []) ∧
    (∃ o1 o2, actionGenerateImage_run (some s) HttpResult.notOk = Except.ok o1 ∧
      o1.messages = ["I couldn\x27t generate the image right now."] ∧ o1.events = [] ∧
      actionGenerateImage_run (some s) HttpResult.exn = Except.ok o2 ∧
      o2.messages = ["The image generation service is unavailable."] ∧ o2.events = []) := by
  refine ⟨?_, ⟨rfl, rfl, rfl, rfl⟩, ?_, ⟨rfl, rfl, rfl, rfl⟩, ⟨_, _, rfl, rfl, rfl, rfl, rfl, rfl⟩⟩
  · simp [actionCreateTask_run, hn]
  · simp [actionBrowseWebsite_run, hu]

/-- Witness for the amended C3: concrete failing calls for ActionCreateTask
and ActionBrowseWebsite. -/
theorem actions_fail_with_single_generic_message_witness :
    (actionCreateTask_run (some "demo") HttpResult.exn).messages
        = ["I\x27m having trouble connecting to the task service."] ∧
    (actionBrowseWebsite_run (some "example.com") HttpResult.notOk).messages
        = ["I had trouble opening that website."] := by
  have h := actions_fail_with_single_generic_message "demo" "example.com" "a cat" none rfl rfl
  exact ⟨h.1.2.2.1, h.2.2.1.1⟩

/-- C7: every outbound HTTP request issued by a dialogue action targets one
of the hardcoded constant localhost URLs, and for every slot value and user
message the target URL of each action is the same constant — input affects
only the body. -/
theorem actions_target_fixed_urls (tn wu um : Option String) (s : String)
    (httpc httpb httpa httpg : HttpResult) (httpl : ListHttpResult) :
    (actionCreateTask_run tn httpc).request.map Prod.fst
        = (match tn with
            | some n => if n.isEmpty then none
                else some "http://localhost:3000/api/orchestrator/tasks"
            | none => none) ∧
    (actionListTasks_run httpl).request.map Prod.fst
        = some "http://localhost:3000/api/orchestrator/tasks" ∧
    (actionBrowseWebsite_run wu httpb).request.map Prod.fst
        = (match wu with
            | some v => if v.isEmpty then none
                else some "http://localhost:3000/api/browser-agent/navigate"
            | none => none) ∧
    (actionAIResponse_run um httpa).request.map Prod.fst
        = some "http://localhost:3000/api/ai/chat" ∧
    (∃ o, actionGenerateImage_run (some s) httpg = Except.ok o ∧
      o.request.map Prod.fst = some "http://localhost:3000/api/ai/chat") := by
  refine ⟨?_, ?_, ?_, ?_, ?_⟩
  · cases tn with
    | none => rfl
    | some n =>
      cases hn : n.isEmpty <;> cases httpc <;> simp [actionCreateTask_run, hn]
  · cases httpl with
    | ok tasks =>
      cases h1 : tasks.isEmpty <;> simp only [actionListTasks_run, h1]
      · cases h2 : build_task_list tasks <;> simp [h2]
      · rfl
    | notOk => rfl
    | exn => rfl
  · cases wu with
    | none => rfl
    | some v =>
      cases hv : v.isEmpty <;> cases httpb <;> simp [actionBrowseWebsite_run, hv]
  · cases httpa with
    | ok body =>
      cases h : py_dict_get body "result"
          (Json.str "I apologize, but I couldn\x27t generate a response.") <;>
        simp [actionAIResponse_run, h]
    | notOk => rfl
    | exn => rfl
  · cases httpg with
    | ok body =>
      refine ⟨_, rfl, ?_⟩
      cases h : py_dict_get body "result" (Json.str "") <;> simp [h]
    | notOk => exact ⟨_, rfl, rfl⟩
    | exn => exact ⟨_, rfl, rfl⟩

/-- C9: each toggle action returns exactly one SlotSet whose value is the
boolean negation of the current slot value's truthiness; toggling a boolean
slot twice restores it, and from an unset (None) slot the first toggle gives
True and the second False. -/
theorem toggle_actions_negate_truthiness (v : Json) (b : Bool) :
    actionToggleConversationMode_run v = [Event.slotSet "conversation_mode" (py_not v)] ∧
    actionToggleAutoSpeak_run v = [Event.slotSet "auto_speak" (py_not v)] ∧
    py_not (Json.bool b) = Json.bool (!b) ∧
    py_not (py_not (Json.bool b)) = Json.bool b ∧
    py_not Json.null = Json.bool true ∧
    py_not (py_not Json.null) = Json.bool false ∧
    actionToggleConversationMode_run (py_not (Json.bool b))
        = [Event.slotSet "conversation_mode" (Json.bool b)] ∧
    actionToggleAutoSpeak_run (py_not (Json.bool b))
        = [Event.slotSet "auto_speak" (Json.bool b)] := by
  cases b <;> exact ⟨rfl, rfl, rfl, rfl, rfl, rfl, rfl, rfl⟩

theorem py_startswith_append_self (p r : String) : py_startswith (p ++ r) p = true := by
  rw [py_startswith, show (p ++ r).data = p.data ++ r.data from rfl,
    List.isPrefixOf_iff_prefix]
  exact List.prefix_append _ _

theorem ensure_url_protocol_of_protocol (s : String)
    (h : (py_startswith s "http://" || py_startswith s "https://") = true) :
    ensure_url_protocol s = s := by
  simp [ensure_url_protocol, h]

/-- C10: for a non-empty `website_url` slot the URL forwarded to the
browser-agent endpoint is the normalised one; it starts with `http://` or
`https://`; `https://` is prepended exactly when the slot bears neither
prefix; and the normalisation is idempotent. -/
theorem browse_url_normalization (u : String) (hu : u.isEmpty = false) :
    (∀ http, (actionBrowseWebsite_run (some u) http).request
        = some ("http://localhost:3000/api/browser-agent/navigate",
            some (Json.obj [("url", Json.str (ensure_url_protocol u))]))) ∧
    (py_startswith (ensure_url_protocol u) "http://" = true ∨
      py_startswith (ensure_url_protocol u) "https://" = true) ∧
    (ensure_url_protocol u = "https://" ++ u ↔
      (py_startswith u "http://" = false ∧ py_startswith u "https://" = false)) ∧
    ensure_url_protocol (ensure_url_protocol u) = ensure_url_protocol u := by
  have hpre : py_startswith (ensure_url_protocol u) "http://" = true ∨
      py_startswith (ensure_url_protocol u) "https://" = true := by
    by_cases hc : (py_startswith u "http://" || py_startswith u "https://") = true
    · rw [ensure_url_protocol_of_protocol u hc]
      cases h1 : py_startswith u "http://"
      · refine Or.inr ?_
        cases h2 : py_startswith u "https://"
        · rw [h1, h2] at hc
          exact absurd hc (by simp)
        · rfl
      · exact Or.inl rfl
    · refine Or.inr ?_
      rw [ensure_url_protocol, if_neg hc]
      exact py_startswith_append_self _ _
  refine ⟨?_, hpre, ?_, ?_⟩
  · intro http
    cases http <;> simp [actionBrowseWebsite_run, hu]
  · constructor
    · intro he
      have hlen : ¬ (py_startswith u "http://" || py_startswith u "https://") = true := by
        intro hc
        rw [ensure_url_protocol_of_protocol u hc] at he
        have hl := congrArg String.length he
        rw [String.length_append] at hl
        rw [show ("https://").length = 8 from rfl] at hl
        omega
      constructor
      · cases h1 : py_startswith u "http://"
        · rfl
        · exact absurd (by rw [h1]; rfl) hlen
      · cases h2 : py_startswith u "https://"
        · rfl
        · exact absurd (by rw [h2]; simp) hlen
    · rintro ⟨h1, h2⟩
      simp [ensure_url_protocol, h1, h2]
  · rcases hpre with h | h <;> exact ensure_url_protocol_of_protocol _ (by simp [h])

/-- Witness for C10: the slot value `example.com` is normalised and forwarded
to the browser-agent URL, idempotently. -/
theorem browse_url_normalization_witness :
    (actionBrowseWebsite_run (some "example.com") (HttpResult.ok Json.null)).request
        = some ("http://localhost:3000/api/browser-agent/navigate",
            some (Json.obj [("url", Json.str (ensure_url_protocol "example.com"))])) ∧
    ensure_url_protocol (ensure_url_protocol "example.com")
        = ensure_url_protocol "example.com" := by
  have h := browse_url_normalization "example.com" rfl
  exact ⟨h.1 (HttpResult.ok Json.null), h.2.2.2⟩

/-- C5: `deploy_all` runs its steps strictly sequentially in the fixed order
install_dependencies, deploy_qwen_vl, deploy_ocr_stack, deploy_edge_models,
create_unified_api; a failure in any of the three model-deployment steps is
caught and later steps still run, so whenever `install_dependencies`
succeeds the template API file is written. -/
theorem deploy_all_sequential_api_written (env : DeployEnv)
    (h : env.install_fails = false) :
    deploy_all env = Except.ok
      ([DeployEv.deps_installed]
        ++ (if env.qwen_fails then [DeployEv.qwen_failed] else [DeployEv.qwen_deployed])
        ++ (if env.ocr_fails then [DeployEv.ocr_failed] else [DeployEv.ocr_deployed])
        ++ (if env.edge_fails then [DeployEv.edge_failed] else [DeployEv.edge_deployed])
        ++ [DeployEv.api_written "/opt/models/vision_api.py"]) ∧
    (∀ t, deploy_all env = Except.ok t →
      DeployEv.api_written "/opt/models/vision_api.py" ∈ t) := by
  have he : deploy_all env = Except.ok
      ([DeployEv.deps_installed]
        ++ (if env.qwen_fails then [DeployEv.qwen_failed] else [DeployEv.qwen_deployed])
        ++ (if env.ocr_fails then [DeployEv.ocr_failed] else [DeployEv.ocr_deployed])
        ++ (if env.edge_fails then [DeployEv.edge_failed] else [DeployEv.edge_deployed])
        ++ [DeployEv.api_written "/opt/models/vision_api.py"]) := by
    cases hq : env.qwen_fails <;> cases ho : env.ocr_fails <;> cases hed : env.edge_fails <;>
      simp [deploy_all, install_dependencies, deploy_qwen_vl, deploy_ocr_stack,
        deploy_edge_models, create_unified_api, h, hq, ho, hed,
        Bind.bind, Except.bind, pure, Except.pure]
  refine ⟨he, ?_⟩
  intro t ht
  rw [he] at ht
  injection ht with ht
  subst ht
  simp

/-- Witness for C5: with working package installation and all three model
deployments failing, the API file write still appears in the trace. -/
theorem deploy_all_sequential_api_written_witness :
    deploy_all ⟨false, true, true, true⟩
      = Except.ok [DeployEv.deps_installed, DeployEv.qwen_failed, DeployEv.ocr_failed,
          DeployEv.edge_failed, DeployEv.api_written "/opt/models/vision_api.py"] ∧
    DeployEv.api_written "/opt/models/vision_api.py"
        ∈ [DeployEv.deps_installed, DeployEv.qwen_failed, DeployEv.ocr_failed,
            DeployEv.edge_failed, DeployEv.api_written "/opt/models/vision_api.py"] := by
  have h := deploy_all_sequential_api_written ⟨false, true, true, true⟩ rfl
  exact ⟨h.1, h.2 _ h.1⟩
